import Mathlib

/-!
Shallow embedding of `src/dashboard_app.py`, a Streamlit dashboard that
collects loan-applicant attributes, POSTs them as JSON to a fixed FastAPI
endpoint, and renders the returned risk segment as a styled card.

The embedding models:
* parsed JSON values (`Json`), with Python dict / truthiness semantics;
* the widget declarations (number-input bounds, selectbox option lists);
* the payload builder `input_data` from the predict-button handler;
* `get_prediction`, the HTTP client with its three error branches, as a
  function over an abstract outcome of the single `requests.post` call;
* the result renderer (`risk_card`) and the whole button handler
  (`predict_button`), which yields the posts made, the messages emitted
  and the render outcome of one interaction.
-/

namespace Dashboard

/-- A parsed JSON value, as returned by `response.json()` in the source.
Numbers are modelled as integers (every number in the interface contract
is an integer). -/
inductive Json where
  | null : Json
  | bool : Bool → Json
  | num : Int → Json
  | str : String → Json
  | arr : List Json → Json
  | obj : List (String × Json) → Json

/-- Lookup of a key in a parsed JSON object, i.e. Python `dict.get(k)`:
with duplicate keys, `json.loads` keeps the last binding, so we look the
key up in the reversed association list. -/
def dictGet (kvs : List (String × Json)) (k : String) : Option Json :=
  List.lookup k kvs.reverse

/-- Python truthiness of a parsed JSON value (`if prediction_result:`):
`None`, `False`, `0`, the empty string, the empty list and the empty dict
are falsy; everything else is truthy. -/
def Json.truthy : Json → Bool
  | .null => false
  | .bool b => b
  | .num n => n != 0
  | .str s => !(s == "")
  | .arr l => !l.isEmpty
  | .obj l => !l.isEmpty

/-- Python `==` between a parsed JSON value and an integer literal, as in
`segment_id == 0`: an int compares by value, a bool compares as 0/1
(Python `True == 1`), any other type is unequal. -/
def jsonEqInt : Json → Int → Bool
  | .num m, n => m == n
  | .bool b, n => (if b then (1 : Int) else 0) == n
  | _, _ => false

mutual

/-- Python `repr()` of a parsed JSON value: `None`/`True`/`False`
spelling, single quotes around strings, comma-separated lists and
dicts. -/
def pyRepr : Json → String
  | .null => "None"
  | .bool b => if b then "True" else "False"
  | .num n => toString n
  | .str s => "'" ++ s ++ "'"
  | .arr l => "[" ++ String.intercalate ", " (pyReprList l) ++ "]"
  | .obj l => "\x7b" ++ String.intercalate ", " (pyReprPairs l) ++ "\x7d"

/-- The reprs of the elements of a parsed JSON array. -/
def pyReprList : List Json → List String
  | [] => []
  | j :: rest => pyRepr j :: pyReprList rest

/-- The `key: value` reprs of the entries of a parsed JSON object. -/
def pyReprPairs : List (String × Json) → List String
  | [] => []
  | (k, v) :: rest => ("'" ++ k ++ "': " ++ pyRepr v) :: pyReprPairs rest

end

/-- Python `str()` of a parsed JSON value, as interpolated by the
f-strings of the source (`f"... {error_detail}"`, `f"... {segment_name}"`):
a string renders as itself, any other value via its repr. -/
def pyStr : Json → String
  | .str s => s
  | j => pyRepr j

/-- A `st.number_input` widget declaration: its minimum bound, optional
maximum bound, and pre-populated default value. -/
structure NumberInput where
  min : Int
  max : Option Int
  default : Int

/-- The widget accepts a value when it lies within the declared bounds
(the widget itself refuses values outside them). -/
def NumberInput.accepts (w : NumberInput) (n : Int) : Prop :=
  w.min ≤ n ∧ match w.max with
    | some m => n ≤ m
    | none => True

instance (w : NumberInput) (n : Int) : Decidable (w.accepts n) := by
  unfold NumberInput.accepts
  cases w.max with
  | none => simp only []; exact inferInstanceAs (Decidable (_ ∧ True))
  | some m => exact inferInstanceAs (Decidable (_ ∧ _ ≤ _))

/-- The Age widget: `st.number_input("Age (Years)", min_value=18, max_value=100, value=35)`. -/
def ageInput : NumberInput := ⟨18, some 100, 35⟩

/-- The Credit Amount widget: `st.number_input("Credit Amount (DM)", min_value=500, value=6500)`. -/
def creditAmountInput : NumberInput := ⟨500, none, 6500⟩

/-- The Loan Duration widget: `st.number_input("Loan Duration (Months)", min_value=6, max_value=72, value=24)`. -/
def durationInput : NumberInput := ⟨6, some 72, 24⟩

/-- The job classification selectbox's code-to-display-label mapping
(`JOB_OPTIONS` in the source). -/
def JOB_OPTIONS : List (Int × String) :=
  [(0, "Unskilled-Non-Resident"), (1, "Unskilled-Resident"),
   (2, "Skilled"), (3, "Highly Skilled")]

/-- The option codes offered by the job selectbox
(`list(JOB_OPTIONS.keys())`). -/
def jobOptionKeys : List Int := JOB_OPTIONS.map Prod.fst

/-- The Sex selectbox options. -/
def sexOptions : List String := ["male", "female"]

/-- The Housing Status selectbox options. -/
def housingOptions : List String := ["rent", "own", "free"]

/-- The Saving Accounts selectbox options. -/
def savingAccountsOptions : List String := ["little", "moderate", "quite rich", "rich"]

/-- The Checking Account selectbox options. -/
def checkingAccountOptions : List String := ["little", "moderate", "rich", "no checking"]

/-- The Purpose of Loan selectbox options. -/
def purposeOptions : List String :=
  ["car", "furniture/equipment", "radio/TV", "domestic appliances", "repairs",
   "education", "business", "vacation/others"]

/-- The transient ApplicantInput entity: the current values of the nine
form widgets at the moment the predict button is pressed. -/
structure ApplicantInput where
  age : Int
  credit_amount : Int
  duration : Int
  sex : String
  job_index : Int
  housing : String
  saving_accounts : String
  checking_account : String
  purpose : String
  deriving Repr, DecidableEq

/-- The invariant the widgets enforce: each numeric field within its
declared bounds, each enumerated field one of its declared options. -/
def ValidInput (a : ApplicantInput) : Prop :=
  ageInput.accepts a.age ∧ creditAmountInput.accepts a.credit_amount ∧
  durationInput.accepts a.duration ∧ a.sex ∈ sexOptions ∧
  a.job_index ∈ jobOptionKeys ∧ a.housing ∈ housingOptions ∧
  a.saving_accounts ∈ savingAccountsOptions ∧
  a.checking_account ∈ checkingAccountOptions ∧ a.purpose ∈ purposeOptions

instance (a : ApplicantInput) : Decidable (ValidInput a) := by
  unfold ValidInput
  exact inferInstanceAs (Decidable (_ ∧ _))

/-- The form state on first render: every widget at its declared default
(`value=` for number inputs, `index=` for selectboxes). -/
def defaultInput : ApplicantInput :=
  ⟨35, 6500, 24, "male", 0, "own", "little", "moderate", "car"⟩

/-- The payload built by the predict-button handler (`input_data` in the
source): nine keys in source order; `int(...)` of the numeric widgets,
the selected strings for the enumerated widgets. -/
def input_data (a : ApplicantInput) : List (String × Json) :=
  [("Age", .num a.age),
   ("Duration", .num a.duration),
   ("Credit_amount", .num a.credit_amount),
   ("Job", .num a.job_index),
   ("Sex", .str a.sex),
   ("Housing", .str a.housing),
   ("Saving_accounts", .str a.saving_accounts),
   ("Checking_account", .str a.checking_account),
   ("Purpose", .str a.purpose)]

/-- The fixed, pre-configured endpoint (`API_URL` in the source). -/
def API_URL : String := "http://127.0.0.1:8000/predict_segment/"

/-- The outcome of the single `requests.post` call, as seen by
`get_prediction`'s `try` block: a response with a status code and a body
(`Except.error e` when `response.json()` raises, carrying `str(e)`), a
`requests.exceptions.ConnectionError`, or any other raised exception
carrying its `str(e)`. -/
inductive ReqOutcome where
  | response (status : Nat) (body : Except String Json)
  | connectionError : ReqOutcome
  | otherExc (msg : String)

/-- A user-visible message emitted through the Streamlit API:
`st.error`, `st.warning` or `st.success`. -/
inductive Msg where
  | error (text : String)
  | warning (text : String)
  | success (text : String)
  deriving Repr, DecidableEq

/-- What one call of `get_prediction` returns and does: its return value
(`some` parsed body or `None`), the messages it emitted, and the list of
payloads it posted to the endpoint. -/
structure ClientResult where
  result : Option Json
  messages : List Msg
  posts : List (List (String × Json))

/-- The CPython message of the `AttributeError` raised by
`body.get("detail", ...)` when the parsed body is not a dict. -/
def attrErrGetMsg (j : Json) : String :=
  (match j with
   | .null => "'NoneType'"
   | .bool _ => "'bool'"
   | .num _ => "'int'"
   | .str _ => "'str'"
   | .arr _ => "'list'"
   | .obj _ => "'dict'")
  ++ " object has no attribute 'get'"

/-- The embedding of `get_prediction(data)`: posts `data` once, then
branches on the outcome exactly as the source's `try`/`except` does.
Status 200 returns the parsed body; any other status reads the body's
`detail` field (falling back to "Unknown API Error") into an
`st.error` plus an `st.warning`; a `ConnectionError` emits its two
fixed messages; any other exception — including `response.json()`
failing to parse, and `.get` on a non-dict error body — is caught by
`except Exception` and reported as an unexpected error. Every branch
other than a parsed 200 returns `none`. -/
def get_prediction (data : List (String × Json)) (o : ReqOutcome) : ClientResult :=
  match o with
  | .response status body =>
    if status = 200 then
      match body with
      | .ok j => ⟨some j, [], [data]⟩
      | .error e => ⟨none, [.error ("An unexpected error occurred: " ++ e)], [data]⟩
    else
      match body with
      | .ok (.obj kvs) =>
        let error_detail := (dictGet kvs "detail").getD (.str "Unknown API Error")
        ⟨none,
         [.error ("API Error (" ++ toString status ++ "): " ++ pyStr error_detail),
          .warning "Ensure your Project 2 FastAPI server is running in a separate terminal."],
         [data]⟩
      | .ok j => ⟨none, [.error ("An unexpected error occurred: " ++ attrErrGetMsg j)], [data]⟩
      | .error e => ⟨none, [.error ("An unexpected error occurred: " ++ e)], [data]⟩
  | .connectionError =>
    ⟨none,
     [.error "Connection Error: Could not connect to the Prediction API.",
      .warning ("Please ensure your Project 2 FastAPI server is running at " ++ API_URL ++ ".")],
     [data]⟩
  | .otherExc m => ⟨none, [.error ("An unexpected error occurred: " ++ m)], [data]⟩

/-- The colors of the style sheet's color roles, keyed by the CSS
variable names the handler assigns to `color`. -/
def lowRiskColor : String := "var(--low-risk)"

/-- The medium-risk (yellow) color role. -/
def mediumRiskColor : String := "var(--medium-risk)"

/-- The high-risk (red) color role. -/
def highRiskColor : String := "var(--high-risk)"

/-- The neutral border color used for the "Prediction Error" card. -/
def borderColor : String := "var(--border-color)"

/-- The result card built from a parsed 200-response object: the source
reads `risk_segment_id` (default `99`) and `risk_segment_name` (default
`"Unknown Segment"`), branches `segment_id == 0 / 1 / 2 / else` into a
(color, label) pair, and interpolates label and segment name into the
card. Returns (color, label, displayed segment name). -/
def risk_card (result : List (String × Json)) : String × String × String :=
  let segment_id := (dictGet result "risk_segment_id").getD (.num 99)
  let segment_name := (dictGet result "risk_segment_name").getD (.str "Unknown Segment")
  let colorLabel :=
    if jsonEqInt segment_id 0 then (lowRiskColor, "Low Risk Segment")
    else if jsonEqInt segment_id 1 then (mediumRiskColor, "Medium Risk Segment")
    else if jsonEqInt segment_id 2 then (highRiskColor, "High Risk Segment")
    else (borderColor, "Prediction Error")
  (colorLabel.1, colorLabel.2, pyStr segment_name)

/-- The visual outcome of one interaction: no result card, a rendered
card (color, label, segment name), or an exception propagating out of
the handler (only possible when a truthy non-dict body reaches
`prediction_result.get`). -/
inductive RenderOutcome where
  | noCard : RenderOutcome
  | card (color label segmentName : String)
  | raised (msg : String)
  deriving Repr, DecidableEq

/-- Everything one press of the predict button does: the payloads posted,
the messages emitted, and the render outcome. -/
structure Interaction where
  posts : List (List (String × Json))
  messages : List Msg
  render : RenderOutcome

/-- The predict-button handler: builds `input_data` from the current form
values, calls `get_prediction` once, and — only if the result is truthy —
renders the risk card followed by an `st.success` message. A falsy result
(including `None` from every failure branch) renders nothing further. -/
def predict_button (a : ApplicantInput) (o : ReqOutcome) : Interaction :=
  let data := input_data a
  let c := get_prediction data o
  match c.result with
  | some j =>
    if j.truthy then
      match j with
      | .obj kvs =>
        let card := risk_card kvs
        ⟨c.posts,
         c.messages ++ [.success "Prediction complete! Result received from FastAPI API."],
         .card card.1 card.2.1 card.2.2⟩
      | _ => ⟨c.posts, c.messages, .raised (attrErrGetMsg j)⟩
    else ⟨c.posts, c.messages, .noCard⟩
  | none => ⟨c.posts, c.messages, .noCard⟩

/-- One string occurs inside another (used to state that a reported
message names the endpoint or includes a failure detail). -/
def containsStr (s sub : String) : Prop :=
  ∃ pre post : String, s = pre ++ sub ++ post

/-- The §4.3 result-card mapping exactly as the specification words it:
integer identifier 0 is the low-risk (green) role and "Low Risk Segment",
1 the medium-risk (yellow) role, 2 the high-risk (red) role, and any
other identifier — including a missing one — the neutral border color and
"Prediction Error". -/
def specSegmentStyle : Option Json → String × String
  | some (.num n) =>
    if n = 0 then (lowRiskColor, "Low Risk Segment")
    else if n = 1 then (mediumRiskColor, "Medium Risk Segment")
    else if n = 2 then (highRiskColor, "High Risk Segment")
    else (borderColor, "Prediction Error")
  | _ => (borderColor, "Prediction Error")

/-- `requests.post` is called exactly once, with the passed payload, on
every path through `get_prediction`. -/
theorem get_prediction_posts (data : List (String × Json)) (o : ReqOutcome) :
    (get_prediction data o).posts = [data] := by
  cases o with
  | response status body =>
    by_cases h : status = 200
    · cases body <;> simp [get_prediction, h]
    · cases body with
      | ok j => cases j <;> simp [get_prediction, h]
      | error e => simp [get_prediction, h]
  | connectionError => rfl
  | otherExc m => rfl

/-- One button press posts exactly the built payload, once, whatever the
call's outcome. -/
theorem predict_button_posts (a : ApplicantInput) (o : ReqOutcome) :
    (predict_button a o).posts = [input_data a] := by
  unfold predict_button
  rcases hr : (get_prediction (input_data a) o).result with _ | j
  · simp only [hr]
    exact get_prediction_posts _ o
  · by_cases ht : j.truthy
    · cases j <;> simp [hr, ht, get_prediction_posts]
    · simp [hr, ht, get_prediction_posts]

/-- C1: for every rendered prediction result whose segment identifier is
an integer or missing, the card's color and label are exactly the
specification's mapping of that identifier: 0 → green "Low Risk Segment",
1 → yellow "Medium Risk Segment", 2 → red "High Risk Segment", anything
else (including missing, which defaults to 99) → neutral border color and
"Prediction Error" — determined solely by the identifier. -/
theorem segment_mapping_matches_spec (kvs : List (String × Json))
    (h : (∃ n : Int, dictGet kvs "risk_segment_id" = some (.num n)) ∨
      dictGet kvs "risk_segment_id" = none) :
    ((risk_card kvs).1, (risk_card kvs).2.1) =
      specSegmentStyle (dictGet kvs "risk_segment_id") := by
  obtain ⟨n, hn⟩ | hn := h
  · by_cases h0 : n = 0
    · subst h0; simp [risk_card, hn, specSegmentStyle, jsonEqInt]
    · by_cases h1 : n = 1
      · subst h1; simp [risk_card, hn, specSegmentStyle, jsonEqInt]
      · by_cases h2 : n = 2
        · subst h2; simp [risk_card, hn, specSegmentStyle, jsonEqInt]
        · simp [risk_card, hn, specSegmentStyle, jsonEqInt, h0, h1, h2]
  · simp [risk_card, hn, specSegmentStyle, jsonEqInt]

/-- Witness for C1 at the specification's own example: a body with
`risk_segment_id` 0 renders with the green role and "Low Risk Segment". -/
theorem segment_mapping_matches_spec_witness :
    dictGet [("risk_segment_id", Json.num 0), ("risk_segment_name", Json.str "Prime Borrowers")]
      "risk_segment_id" = some (Json.num 0) ∧
    ((risk_card [("risk_segment_id", Json.num 0), ("risk_segment_name", Json.str "Prime Borrowers")]).1,
      (risk_card [("risk_segment_id", Json.num 0), ("risk_segment_name", Json.str "Prime Borrowers")]).2.1) =
      specSegmentStyle (dictGet
        [("risk_segment_id", Json.num 0), ("risk_segment_name", Json.str "Prime Borrowers")]
        "risk_segment_id") :=
  ⟨rfl, segment_mapping_matches_spec _ (Or.inl ⟨0, rfl⟩)⟩

/-- C2: for every valid ApplicantInput, the payload holds exactly the nine
documented keys in order, with Age/Duration/Credit_amount/Job carried as
integers equal to the corresponding fields and the other five carried as
strings drawn from their declared option sets. -/
theorem payload_shape (a : ApplicantInput) (h : ValidInput a) :
    (input_data a).map Prod.fst =
      ["Age", "Duration", "Credit_amount", "Job", "Sex", "Housing",
       "Saving_accounts", "Checking_account", "Purpose"] ∧
    dictGet (input_data a) "Age" = some (.num a.age) ∧
    dictGet (input_data a) "Duration" = some (.num a.duration) ∧
    dictGet (input_data a) "Credit_amount" = some (.num a.credit_amount) ∧
    dictGet (input_data a) "Job" = some (.num a.job_index) ∧
    dictGet (input_data a) "Sex" = some (.str a.sex) ∧
    dictGet (input_data a) "Housing" = some (.str a.housing) ∧
    dictGet (input_data a) "Saving_accounts" = some (.str a.saving_accounts) ∧
    dictGet (input_data a) "Checking_account" = some (.str a.checking_account) ∧
    dictGet (input_data a) "Purpose" = some (.str a.purpose) ∧
    a.sex ∈ sexOptions ∧ a.housing ∈ housingOptions ∧
    a.saving_accounts ∈ savingAccountsOptions ∧
    a.checking_account ∈ checkingAccountOptions ∧ a.purpose ∈ purposeOptions := by
  obtain ⟨-, -, -, hsex, -, hhous, hsav, hchk, hpur⟩ := h
  exact ⟨rfl, rfl, rfl, rfl, rfl, rfl, rfl, rfl, rfl, rfl,
    hsex, hhous, hsav, hchk, hpur⟩

/-- Witness for C2 at the form's default values (a valid input). -/
theorem payload_shape_witness :
    ValidInput defaultInput ∧
    dictGet (input_data defaultInput) "Age" = some (Json.num 35) := by
  have h := payload_shape defaultInput (by decide)
  exact ⟨by decide, h.2.1⟩

/-- C3: for every non-200 response whose body parses to a JSON object,
`get_prediction` returns `None`, reports an API-error message carrying
the body's `detail` field (or "Unknown API Error" when it is absent), and
the handler renders no result card. -/
theorem nonOk_reports_detail (a : ApplicantInput) (status : Nat)
    (kvs : List (String × Json)) (h : status ≠ 200) :
    (get_prediction (input_data a) (.response status (.ok (.obj kvs)))).result = none ∧
    (get_prediction (input_data a) (.response status (.ok (.obj kvs)))).messages =
      [.error ("API Error (" ++ toString status ++ "): "
          ++ pyStr ((dictGet kvs "detail").getD (.str "Unknown API Error"))),
       .warning "Ensure your Project 2 FastAPI server is running in a separate terminal."] ∧
    (predict_button a (.response status (.ok (.obj kvs)))).render = .noCard := by
  refine ⟨?_, ?_, ?_⟩ <;> simp [get_prediction, predict_button, h]

/-- Witness for C3 at the specification's example: status 422 with body
detail "Age must be positive" yields no result, the detail is reported
verbatim, and no card is rendered. -/
theorem nonOk_reports_detail_witness :
    (get_prediction (input_data defaultInput)
      (.response 422 (.ok (.obj [("detail", Json.str "Age must be positive")])))).result = none ∧
    (get_prediction (input_data defaultInput)
      (.response 422 (.ok (.obj [("detail", Json.str "Age must be positive")])))).messages =
      [.error "API Error (422): Age must be positive",
       .warning "Ensure your Project 2 FastAPI server is running in a separate terminal."] ∧
    (predict_button defaultInput
      (.response 422 (.ok (.obj [("detail", Json.str "Age must be positive")])))).render = .noCard := by
  have h := nonOk_reports_detail defaultInput 422 [("detail", Json.str "Age must be positive")]
    (by decide)
  exact ⟨h.1, h.2.1.trans (by decide), h.2.2⟩

/-- C4: on a connection error the client reports its distinct
cannot-connect error followed by a warning that names the configured
endpoint, returns `None`, and the handler renders no result card. -/
theorem connection_error_reported (a : ApplicantInput) :
    (get_prediction (input_data a) .connectionError).result = none ∧
    (get_prediction (input_data a) .connectionError).messages =
      [.error "Connection Error: Could not connect to the Prediction API.",
       .warning ("Please ensure your Project 2 FastAPI server is running at "
          ++ API_URL ++ ".")] ∧
    (∃ w, Msg.warning w ∈ (get_prediction (input_data a) .connectionError).messages ∧
      containsStr w API_URL) ∧
    (predict_button a .connectionError).render = .noCard := by
  refine ⟨rfl, rfl, ⟨"Please ensure your Project 2 FastAPI server is running at "
    ++ API_URL ++ ".", ?_, ?_⟩, rfl⟩
  · simp [get_prediction]
  · exact ⟨"Please ensure your Project 2 FastAPI server is running at ", ".", rfl⟩

/-- C5: any failure other than a non-200 response or a connection error —
a raised exception, or a body that fails to parse at any status — is
reported as "An unexpected error occurred" carrying the failure detail,
and the client returns `None` with no card rendered. -/
theorem unexpected_failure_reported (a : ApplicantInput) (m : String) (status : Nat) :
    (get_prediction (input_data a) (.otherExc m)).result = none ∧
    (get_prediction (input_data a) (.otherExc m)).messages =
      [.error ("An unexpected error occurred: " ++ m)] ∧
    containsStr ("An unexpected error occurred: " ++ m) m ∧
    (get_prediction (input_data a) (.response status (.error m))).result = none ∧
    (get_prediction (input_data a) (.response status (.error m))).messages =
      [.error ("An unexpected error occurred: " ++ m)] ∧
    (predict_button a (.otherExc m)).render = .noCard ∧
    (predict_button a (.response status (.error m))).render = .noCard := by
  refine ⟨rfl, rfl, ⟨"An unexpected error occurred: ", "", ?_⟩, ?_, ?_, rfl, ?_⟩
  · simp
  · by_cases h : status = 200 <;> simp [get_prediction, h]
  · by_cases h : status = 200 <;> simp [get_prediction, h]
  · by_cases h : status = 200 <;> simp [predict_button, get_prediction, h]

/-- A call outcome on which `get_prediction` cannot return a parsed
result: anything except a 200 response with a parseable body. -/
def ReqOutcome.isFailure : ReqOutcome → Bool
  | .response status (.ok _) => status != 200
  | _ => true

/-- C6: `get_prediction` is total over every possible call outcome — on
every failure it returns `None` and emits a user-visible error message,
and on every parsed 200 response it returns the body with no message;
nothing propagates past the client boundary. -/
theorem client_catches_all (a : ApplicantInput) (o : ReqOutcome) :
    (o.isFailure = true →
      (get_prediction (input_data a) o).result = none ∧
      ∃ s, Msg.error s ∈ (get_prediction (input_data a) o).messages) ∧
    (∀ j, o = .response 200 (.ok j) →
      get_prediction (input_data a) o = ⟨some j, [], [input_data a]⟩) := by
  cases o with
  | response status body =>
    cases body with
    | ok j =>
      by_cases h : status = 200
      · subst h
        refine ⟨fun hf => absurd hf (by simp [ReqOutcome.isFailure]), fun j' hj => ?_⟩
        cases hj
        rfl
      · refine ⟨fun _ => ?_, fun j' hj => ?_⟩
        · cases j <;> simp [get_prediction, h]
        · injection hj with h1 h2
          exact absurd h1 h
    | error e =>
      refine ⟨fun _ => ?_, fun j' hj => by injection hj with h1 h2; cases h2⟩
      by_cases h : status = 200 <;> simp [get_prediction, h]
  | connectionError =>
    exact ⟨fun _ => ⟨rfl, "Connection Error: Could not connect to the Prediction API.",
      by simp [get_prediction]⟩, fun j' hj => by cases hj⟩
  | otherExc m =>
    exact ⟨fun _ => ⟨rfl, "An unexpected error occurred: " ++ m,
      by simp [get_prediction]⟩, fun j' hj => by cases hj⟩

/-- Witness for C6 at a concrete failure outcome (a connection error):
the result is `None` and an error message was emitted. -/
theorem client_catches_all_witness :
    (get_prediction (input_data defaultInput) .connectionError).result = none ∧
    ∃ s, Msg.error s ∈ (get_prediction (input_data defaultInput) .connectionError).messages :=
  (client_catches_all defaultInput .connectionError).1 rfl

/-- C7: the Age widget accepts both its declared bounds 18 and 100, and
for every ApplicantInput the payload's Age entry is exactly the held age
value, carried as an integer. -/
theorem age_bounds_forwarded :
    ageInput.accepts 18 ∧ ageInput.accepts 100 ∧
    ∀ a : ApplicantInput, dictGet (input_data a) "Age" = some (.num a.age) :=
  ⟨by decide, by decide, fun _ => rfl⟩

/-- C8: payload construction is deterministic and uncached — each of two
successive triggers on the same ApplicantInput posts exactly one request,
and both requests carry the identical built payload, whatever the call
outcomes were. -/
theorem payload_idempotent (a : ApplicantInput) (o₁ o₂ : ReqOutcome) :
    (predict_button a o₁).posts = [input_data a] ∧
    (predict_button a o₂).posts = [input_data a] ∧
    (predict_button a o₁).posts = (predict_button a o₂).posts ∧
    (predict_button a o₁).posts.length = 1 := by
  have h1 := predict_button_posts a o₁
  have h2 := predict_button_posts a o₂
  exact ⟨h1, h2, h1.trans h2.symm, by rw [h1]; rfl⟩

/-- C9: a rendered non-empty object lacking `risk_segment_name` displays
the default name "Unknown Segment"; one lacking `risk_segment_id` takes
the default identifier 99 and hence renders as "Prediction Error" with
the neutral border color; and a truthy object body does reach the card
renderer. -/
theorem missing_keys_defaults (a : ApplicantInput) (kvs : List (String × Json))
    (hne : kvs ≠ []) :
    (dictGet kvs "risk_segment_name" = none → (risk_card kvs).2.2 = "Unknown Segment") ∧
    (dictGet kvs "risk_segment_id" = none →
      (risk_card kvs).2.1 = "Prediction Error" ∧ (risk_card kvs).1 = borderColor) ∧
    (predict_button a (.response 200 (.ok (.obj kvs)))).render =
      .card (risk_card kvs).1 (risk_card kvs).2.1 (risk_card kvs).2.2 := by
  refine ⟨fun h => ?_, fun h => ?_, ?_⟩
  · simp [risk_card, h, pyStr]
  · constructor <;> simp [risk_card, h, jsonEqInt]
  · have ht : (Json.obj kvs).truthy = true := by
      simp [Json.truthy, List.isEmpty_iff, hne]
    simp [predict_button, get_prediction, ht]

/-- Witness for C9 at a one-entry object carrying neither key: the card
shows "Unknown Segment", "Prediction Error" and the border color. -/
theorem missing_keys_defaults_witness :
    (risk_card [("x", Json.num 1)]).2.2 = "Unknown Segment" ∧
    (risk_card [("x", Json.num 1)]).2.1 = "Prediction Error" ∧
    (risk_card [("x", Json.num 1)]).1 = borderColor ∧
    (predict_button defaultInput (.response 200 (.ok (.obj [("x", Json.num 1)])))).render =
      .card (risk_card [("x", Json.num 1)]).1 (risk_card [("x", Json.num 1)]).2.1
        (risk_card [("x", Json.num 1)]).2.2 := by
  obtain ⟨h1, h2, h3⟩ :=
    missing_keys_defaults defaultInput [("x", Json.num 1)] (List.cons_ne_nil _ _)
  exact ⟨h1 rfl, (h2 rfl).1, (h2 rfl).2, h3⟩

/-- C10: a 200 response whose parsed body is falsy (the empty object,
`null`, `0`, the empty string, ...) is returned by `get_prediction` with
no message, and the handler's truthiness guard then renders neither a
card nor any message: the interaction ends silently. -/
theorem falsy_body_silent (a : ApplicantInput) (j : Json) (h : j.truthy = false) :
    (get_prediction (input_data a) (.response 200 (.ok j))).result = some j ∧
    (get_prediction (input_data a) (.response 200 (.ok j))).messages = [] ∧
    (predict_button a (.response 200 (.ok j))).render = .noCard ∧
    (predict_button a (.response 200 (.ok j))).messages = [] := by
  refine ⟨rfl, rfl, ?_, ?_⟩ <;> simp [predict_button, get_prediction, h]

/-- Witness for C10 at the empty-object body: the body is returned, yet
nothing is rendered and no message is emitted. -/
theorem falsy_body_silent_witness :
    (get_prediction (input_data defaultInput) (.response 200 (.ok (Json.obj [])))).result =
      some (Json.obj []) ∧
    (get_prediction (input_data defaultInput) (.response 200 (.ok (Json.obj [])))).messages = [] ∧
    (predict_button defaultInput (.response 200 (.ok (Json.obj [])))).render = .noCard ∧
    (predict_button defaultInput (.response 200 (.ok (Json.obj [])))).messages = [] :=
  falsy_body_silent defaultInput (Json.obj []) rfl

end Dashboard
